import Mathlib

/-!
Verification of the slido-clone backend against its specification.

The development shallowly embeds the parts of the backend the claims are
about:

* `src/backend/src/services/poll_service.py` — poll creation, status
  updates, voting, results (`PollService`);
* `src/backend/src/services/question_service.py` — question upvote toggle
  (`QuestionService.upvote_question`);
* `src/backend/src/api/websocket.py` — the `ConnectionManager` room map
  (connect/disconnect/broadcast) and the per-connection receive loop.

The database is modelled as lists of rows (insertion order = rowid order);
SQLAlchemy sessions are created with `autoflush=False`
(`src/backend/src/core/database.py`), so a query issued after a pending
`Session.delete` still sees the to-be-deleted row; a raised HTTPException
aborts the request and the session is closed uncommitted, i.e. the
committed state is unchanged.  Services are therefore embedded as functions
`DB → Except ServiceError (result × DB)` where an error leaves the caller
with the original `DB`.
-/

/-- Poll type enumeration (`PollType` in `src/backend/src/models/poll.py`). -/
inductive PollType where
  | single
  | multiple
deriving DecidableEq, Repr

/-- Poll status enumeration (`PollStatus` in `src/backend/src/models/poll.py`). -/
inductive PollStatus where
  | draft
  | active
  | closed
deriving DecidableEq, Repr

/-- Question status enumeration (`QuestionStatus` in `src/backend/src/models/question.py`). -/
inductive QuestionStatus where
  | submitted
  | approved
  | answered
  | rejected
deriving DecidableEq, Repr

/-- Typed outcome of a failed service call.  The Python services raise
`HTTPException`s; each constructor records which raise site fired.
`attributeError a` models a Python `AttributeError` escaping instead of the
intended `HTTPException`: in `PollService.update_poll_status` the `status`
parameter (a `str`) shadows the imported `fastapi.status` module, so
evaluating `status.HTTP_404_NOT_FOUND` raises `AttributeError`. -/
inductive ServiceError where
  | notFoundPoll
  | optionNotFound
  | invalidState
  | duplicateVote
  | notFoundQuestion
  | validationError (detail : String)
  | attributeError (attr : String)
deriving DecidableEq, Repr

/-- A row of the `polls` table (`src/backend/src/models/poll.py`). -/
structure PollRec where
  id : Nat
  event_id : Nat
  question_text : String
  poll_type : PollType
  status : PollStatus
deriving DecidableEq, Repr

/-- A row of the `poll_options` table (`src/backend/src/models/poll_option.py`). -/
structure PollOptionRec where
  id : Nat
  poll_id : Nat
  option_text : String
  position : Nat
deriving DecidableEq, Repr

/-- A row of the `poll_responses` table (`src/backend/src/models/poll_response.py`);
the surrogate primary key is irrelevant to the claims and omitted. -/
structure PollResponseRec where
  poll_id : Nat
  option_id : Nat
  attendee_id : Nat
deriving DecidableEq, Repr

/-- A row of the `attendees` table (`src/backend/src/models/attendee.py`). -/
structure AttendeeRec where
  id : Nat
  event_id : Nat
  session_id : String
deriving DecidableEq, Repr

/-- A row of the `questions` table (`src/backend/src/models/question.py`). -/
structure QuestionRec where
  id : Nat
  event_id : Nat
  attendee_id : Nat
  question_text : String
  status : QuestionStatus
deriving DecidableEq, Repr

/-- A row of the `question_votes` table (`src/backend/src/models/question_vote.py`). -/
structure QuestionVoteRec where
  question_id : Nat
  attendee_id : Nat
deriving DecidableEq, Repr

/-- The relational store.  Row lists are kept in insertion (rowid) order;
`next…Id` fields model autoincrement primary-key allocation. -/
structure DB where
  polls : List PollRec
  options : List PollOptionRec
  attendees : List AttendeeRec
  responses : List PollResponseRec
  questions : List QuestionRec
  question_votes : List QuestionVoteRec
  nextAttendeeId : Nat
  nextPollId : Nat
  nextOptionId : Nat
deriving DecidableEq, Repr

/-- Remove the first element satisfying `p` (a `Session.delete` of the row
returned by a `.first()` query). -/
def eraseFirstP (p : α → Bool) : List α → List α
  | [] => []
  | x :: rest => if p x then rest else x :: eraseFirstP p rest

/-- `db.query(Poll).filter(Poll.id == poll_id).first()`. -/
def findPoll (db : DB) (pid : Nat) : Option PollRec :=
  db.polls.find? (fun p => p.id == pid)

/-- `db.query(Attendee).filter(session_id == sid, event_id == eid).first()`. -/
def findAttendee (db : DB) (sid : String) (eid : Nat) : Option AttendeeRec :=
  db.attendees.find? (fun a => a.session_id == sid && a.event_id == eid)

/-- `db.query(PollOption).filter(id == oid, poll_id == pid).first()`. -/
def findOption (db : DB) (oid pid : Nat) : Option PollOptionRec :=
  db.options.find? (fun o => o.id == oid && o.poll_id == pid)

/-- The filter `poll_id == pid, attendee_id == aid` on `PollResponse` rows. -/
def pairPred (pid aid : Nat) (r : PollResponseRec) : Bool :=
  r.poll_id == pid && r.attendee_id == aid

/-- `db.query(PollResponse).filter(poll_id == pid, attendee_id == aid).first()`. -/
def firstResponseBy (db : DB) (pid aid : Nat) : Option PollResponseRec :=
  db.responses.find? (pairPred pid aid)

/-- `db.query(PollResponse).filter(poll_id == pid, option_id == oid,
attendee_id == aid).first()`. -/
def findVote (db : DB) (pid oid aid : Nat) : Option PollResponseRec :=
  db.responses.find? (fun r => r.poll_id == pid && r.option_id == oid && r.attendee_id == aid)

/-- The get-or-create-attendee block shared by `vote_on_poll`,
`submit_question` and `upvote_question`: look up by (session, event) and on
a miss insert a fresh row (flushed, so visible to later reads in the call). -/
def getOrCreateAttendee (db : DB) (eid : Nat) (sid : String) : AttendeeRec × DB :=
  match findAttendee db sid eid with
  | some a => (a, db)
  | none =>
      let a : AttendeeRec := ⟨db.nextAttendeeId, eid, sid⟩
      (a, { db with attendees := db.attendees ++ [a],
                    nextAttendeeId := db.nextAttendeeId + 1 })

/-- The attendee id the session `sid` resolves to for event `eid` (the id of
the found row, or the freshly allocated id). -/
def resolveId (db : DB) (eid : Nat) (sid : String) : Nat :=
  (getOrCreateAttendee db eid sid).1.id

/-- `PollService.vote_on_poll` (`src/backend/src/services/poll_service.py`,
lines 113–189).  An error models a raised `HTTPException`: the session is
closed uncommitted, so the caller's committed state is unchanged.  The
single-choice branch marks the attendee's existing response for deletion,
but with `autoflush=False` that pending delete is not flushed before the
duplicate-vote query, which therefore still sees the old row. -/
def voteOnPoll (db : DB) (pid oid : Nat) (sid : String) : Except ServiceError DB :=
  match findPoll db pid with
  | none => .error .notFoundPoll
  | some poll =>
      if poll.status ≠ PollStatus.active then .error .invalidState
      else
        let ga := getOrCreateAttendee db poll.event_id sid
        let att := ga.1
        let db1 := ga.2
        match findOption db1 oid pid with
        | none => .error .optionNotFound
        | some _ =>
            let pending :=
              if poll.poll_type = PollType.single then firstResponseBy db1 pid att.id
              else none
            match findVote db1 pid oid att.id with
            | some _ => .error .duplicateVote
            | none =>
                let base :=
                  match pending with
                  | some _ => eraseFirstP (pairPred pid att.id) db1.responses
                  | none => db1.responses
                .ok { db1 with responses := base ++ [⟨pid, oid, att.id⟩] }

/-- `PollStatus(status)` — parse the status string into the enum. -/
def parsePollStatus (s : String) : Option PollStatus :=
  if s = "draft" then some .draft
  else if s = "active" then some .active
  else if s = "closed" then some .closed
  else none

/-- `PollType(poll_type)` — parse the poll type string into the enum. -/
def parsePollType (s : String) : Option PollType :=
  if s = "single" then some .single
  else if s = "multiple" then some .multiple
  else none

/-- Update the first poll row with id `pid` in place (the ORM mutates the
object returned by the `.first()` query). -/
def setPollStatus (pid : Nat) (st : PollStatus) : List PollRec → List PollRec
  | [] => []
  | p :: rest =>
      if p.id == pid then { p with status := st } :: rest
      else p :: setPollStatus pid st rest

/-- `PollService.update_poll_status` (`src/backend/src/services/poll_service.py`,
lines 90–111).  The method's `status` parameter shadows the imported
`fastapi.status` module, so on both raise sites `status.HTTP_…` is an
attribute lookup on a `str` and raises `AttributeError` instead of
constructing the intended `HTTPException`. -/
def updatePollStatus (db : DB) (pid : Nat) (status : String) :
    Except ServiceError (PollRec × DB) :=
  match findPoll db pid with
  | none => .error (.attributeError "HTTP_404_NOT_FOUND")
  | some poll =>
      match parsePollStatus status with
      | none => .error (.attributeError "HTTP_422_UNPROCESSABLE_ENTITY")
      | some st =>
          .ok ({ poll with status := st },
               { db with polls := setPollStatus pid st db.polls })

/-- `PollService.create_poll` (`src/backend/src/services/poll_service.py`,
lines 24–88).  Options are `(option_text, position)` pairs.  All failures
raise before commit, so an error leaves the store unchanged; the `Poll`
constructor is called without `status`, so the column default
`PollStatus.draft` applies. -/
def createPoll (db : DB) (eid : Nat) (question_text : String) (poll_type : String)
    (opts : List (String × Nat)) : Except ServiceError (PollRec × DB) :=
  if question_text.trim = "" then .error (.validationError "Question text is required")
  else
    match parsePollType poll_type with
    | none => .error (.validationError "Poll type must be single or multiple")
    | some ty =>
        if opts.length < 2 then .error (.validationError "Poll must have at least 2 options")
        else if opts.length > 10 then
          .error (.validationError "Poll cannot have more than 10 options")
        else if opts.any (fun o => o.1.trim = "") then
          .error (.validationError "Option text is required")
        else
          let poll : PollRec :=
            ⟨db.nextPollId, eid, question_text.trim, ty, PollStatus.draft⟩
          let newOpts :=
            (opts.enum).map
              (fun oi => (⟨db.nextOptionId + oi.1, poll.id, oi.2.1.trim, oi.2.2⟩ : PollOptionRec))
          .ok (poll,
               { db with polls := db.polls ++ [poll],
                         options := db.options ++ newOpts,
                         nextPollId := db.nextPollId + 1,
                         nextOptionId := db.nextOptionId + opts.length })

/-- `PollOption.vote_count` (`src/backend/src/models/poll_option.py`, lines
31–34): the number of `PollResponse` rows for the option. -/
def optionVoteCount (db : DB) (oid : Nat) : Nat :=
  (db.responses.filter (fun r => r.option_id == oid)).length

/-- `Poll.options` relationship: the option rows of a poll, in insertion
order. -/
def optionsOf (db : DB) (pid : Nat) : List PollOptionRec :=
  db.options.filter (fun o => o.poll_id == pid)

/-- `Poll.total_votes` (`src/backend/src/models/poll.py`, lines 53–56): the
sum of `vote_count` over the poll's options. -/
def totalVotes (db : DB) (pid : Nat) : Nat :=
  ((optionsOf db pid).map (fun o => optionVoteCount db o.id)).sum

/-- One entry of the results payload of `get_poll_results`. -/
structure ResultEntry where
  option_id : Nat
  option_text : String
  vote_count : Nat
  position : Nat
deriving DecidableEq, Repr

/-- The results payload of `get_poll_results`. -/
structure PollResults where
  poll_id : Nat
  total_votes : Nat
  results : List ResultEntry
deriving DecidableEq, Repr

/-- Comparison used by `sorted(results, key=lambda x: x["position"])`. -/
def entryLe (a b : ResultEntry) : Prop := a.position ≤ b.position

instance : DecidableRel entryLe := fun a b => inferInstanceAs (Decidable (a.position ≤ b.position))

instance : IsTotal ResultEntry entryLe := ⟨fun a b => Nat.le_total a.position b.position⟩

instance : IsTrans ResultEntry entryLe := ⟨fun _ _ _ h h' => Nat.le_trans h h'⟩

/-- The entry built for option `o` in the results loop. -/
def mkEntry (db : DB) (o : PollOptionRec) : ResultEntry :=
  ⟨o.id, o.option_text, optionVoteCount db o.id, o.position⟩

/-- `PollService.get_poll_results` (`src/backend/src/services/poll_service.py`,
lines 191–213): one entry per option of the poll, sorted ascending by
position (Python's `sorted` is stable, as is insertion sort, so the sorted
lists agree). -/
def getPollResults (db : DB) (pid : Nat) : Except ServiceError PollResults :=
  match findPoll db pid with
  | none => .error .notFoundPoll
  | some _ =>
      let results := (optionsOf db pid).map (mkEntry db)
      .ok ⟨pid, totalVotes db pid, results.insertionSort entryLe⟩

/-- `Question.upvote_count` (`src/backend/src/models/question.py`, lines
46–49): the number of `QuestionVote` rows for the question. -/
def questionUpvoteCount (db : DB) (qid : Nat) : Nat :=
  (db.question_votes.filter (fun v => v.question_id == qid)).length

/-- `db.query(Question).filter(Question.id == question_id).first()`. -/
def findQuestion (db : DB) (qid : Nat) : Option QuestionRec :=
  db.questions.find? (fun q => q.id == qid)

/-- The filter `question_id == qid, attendee_id == aid` on `QuestionVote` rows. -/
def qPairPred (qid aid : Nat) (v : QuestionVoteRec) : Bool :=
  v.question_id == qid && v.attendee_id == aid

/-- The payload returned by `upvote_question`. -/
structure UpvoteResult where
  action : String
  question_id : Nat
  upvote_count : Nat
deriving DecidableEq, Repr

/-- `QuestionService.upvote_question` (`src/backend/src/services/question_service.py`,
lines 85–137): toggle the (question, attendee) vote row and return the
action together with the post-commit upvote count. -/
def upvoteQuestion (db : DB) (qid : Nat) (sid : String) (eid : Nat) :
    Except ServiceError (UpvoteResult × DB) :=
  match findQuestion db qid with
  | none => .error .notFoundQuestion
  | some _ =>
      let ga := getOrCreateAttendee db eid sid
      let att := ga.1
      let db1 := ga.2
      match db1.question_votes.find? (qPairPred qid att.id) with
      | some _ =>
          let votes' := eraseFirstP (qPairPred qid att.id) db1.question_votes
          let db2 := { db1 with question_votes := votes' }
          .ok (⟨"removed", qid, questionUpvoteCount db2 qid⟩, db2)
      | none =>
          let db2 := { db1 with question_votes := db1.question_votes ++ [⟨qid, att.id⟩] }
          .ok (⟨"added", qid, questionUpvoteCount db2 qid⟩, db2)

/-!
`ConnectionManager` (`src/backend/src/api/websocket.py`, lines 22–75).
Connections are identified by numbers; `active_connections` (a Python dict
from event id to a set of websockets) is modelled as an association list
with at most one entry per key, each room a duplicate-free list.  Whether a
`send_text` to a connection raises is abstracted by a predicate
`fails : Nat → Bool` fixed for the duration of one broadcast.
-/

/-- The room map `active_connections`. -/
abbrev Manager := List (Nat × List Nat)

/-- Dict lookup `active_connections[event_id]` / `event_id in active_connections`. -/
def findRoom (m : Manager) (eid : Nat) : Option (List Nat) :=
  (List.find? (fun e => e.1 == eid) m).map (fun e => e.2)

/-- Dict assignment `active_connections[event_id] = room` for a present key:
replace the (first) entry in place. -/
def setRoom (eid : Nat) (room : List Nat) : Manager → Manager
  | [] => []
  | e :: rest => if e.1 == eid then (eid, room) :: rest else e :: setRoom eid room rest

/-- `del active_connections[event_id]`: drop the (first) entry for the key. -/
def eraseRoom (eid : Nat) : Manager → Manager
  | [] => []
  | e :: rest => if e.1 == eid then rest else e :: eraseRoom eid rest

/-- `ConnectionManager.disconnect` (`src/backend/src/api/websocket.py`, lines
39–48): if the event has a room, discard the websocket from it and, when the
room is then empty, delete the room entry. -/
def disconnect (m : Manager) (ws : Nat) (eid : Nat) : Manager :=
  match findRoom m eid with
  | none => m
  | some room =>
      let room' := room.filter (fun c => c ≠ ws)
      if room' = [] then eraseRoom eid m
      else setRoom eid room' m

/-- `ConnectionManager.broadcast_to_event` (`src/backend/src/api/websocket.py`,
lines 50–68): if the event has no room, return; otherwise send to every
member, collecting the ones whose send raised, and afterwards discard those
from the room.  Returns the list of connections the message reached together
with the updated map.  The room entry itself is never deleted here. -/
def broadcast_to_event (m : Manager) (eid : Nat) (fails : Nat → Bool) :
    List Nat × Manager :=
  match findRoom m eid with
  | none => ([], m)
  | some room =>
      let delivered := room.filter (fun c => !(fails c))
      let room' := room.filter (fun c => !(fails c))
      (delivered, setRoom eid room' m)

/-!
The per-connection receive loop of `websocket_endpoint`
(`src/backend/src/api/websocket.py`, lines 112–148).  An inbound frame
either fails JSON decoding (`Frame.malformed`) or decodes to a message with
an optional `type` string and an optional `timestamp` value; the handler
never inspects the timestamp, so its value type is a parameter.  A frame of
type `join` is answered with `joined`, `ping` with `pong` echoing the
timestamp, anything else with an `error` frame, and in each case the loop
continues with the next frame.
-/

/-- A decoded inbound client message: `message.get("type")` and
`message.get("timestamp")`.  `mtype = none` covers an absent (or non-string,
hence never matching) `type` field. -/
structure InMsg (α : Type) where
  mtype : Option String
  timestamp : Option α
deriving DecidableEq, Repr

/-- One inbound frame as seen by the receive loop: either text that fails
`json.loads`, or a decoded message. -/
inductive Frame (α : Type) where
  | malformed
  | msg (m : InMsg α)
deriving DecidableEq, Repr

/-- An outbound frame sent by the endpoint. -/
inductive OutMsg (α : Type) where
  | joined (event_id : Nat)
  | pong (timestamp : Option α)
  | errorMsg (message : String)
deriving DecidableEq, Repr

/-- The detail string of the unknown-type error reply
(`f"Unknown message type: {message.get('type')}"`). -/
def unknownTypeDetail (t : Option String) : String :=
  "Unknown message type: " ++ (match t with | none => "None" | some s => s)

/-- The dispatch on `message.get("type")` inside the receive loop. -/
def handleMessage (eid : Nat) (m : InMsg α) : OutMsg α :=
  if m.mtype = some "join" then .joined eid
  else if m.mtype = some "ping" then .pong m.timestamp
  else .errorMsg (unknownTypeDetail m.mtype)

/-- The receive loop over a stream of inbound frames: every frame is
answered (a `json.JSONDecodeError` with an `Invalid JSON format` error
frame) and the loop keeps running — only a transport-level failure, which
ends the stream itself, breaks it. -/
def receiveLoop (eid : Nat) : List (Frame α) → List (OutMsg α)
  | [] => []
  | .malformed :: rest => .errorMsg "Invalid JSON format" :: receiveLoop eid rest
  | .msg m :: rest => handleMessage eid m :: receiveLoop eid rest

/-!
Vote-call traces, for the sequence-level single-choice invariant.
-/

/-- The arguments of one `vote_on_poll` call. -/
structure VoteCall where
  poll_id : Nat
  option_id : Nat
  session_id : String
deriving DecidableEq, Repr

/-- The committed state after one `vote_on_poll` call: the new state on
success; on a raised `HTTPException` the session is closed uncommitted and
the store is unchanged. -/
def applyCall (db : DB) (c : VoteCall) : DB :=
  match voteOnPoll db c.poll_id c.option_id c.session_id with
  | .ok db' => db'
  | .error _ => db

/-- Run a sequence of `vote_on_poll` calls. -/
def runTrace (db : DB) : List VoteCall → DB
  | [] => db
  | c :: cs => runTrace (applyCall db c) cs

/-- The `PollResponse` rows of one (poll, attendee) pair. -/
def pairResponses (db : DB) (pid aid : Nat) : List PollResponseRec :=
  db.responses.filter (pairPred pid aid)

/-- The poll type of poll `pid`, when the poll exists. -/
def pollTypeOf (db : DB) (pid : Nat) : Option PollType :=
  (findPoll db pid).map (fun p => p.poll_type)

/-- The rows a (poll, attendee) pair should hold: none, or exactly the one
recording option `o`. -/
def optToList (pid aid : Nat) : Option Nat → List PollResponseRec
  | none => []
  | some o => [⟨pid, o, aid⟩]

/-- The option of the most recent successful `vote_on_poll` call of the
trace that targeted poll `pid` and resolved to attendee `aid` (`acc` is the
value before the trace). -/
def lastSuccOpt (pid aid : Nat) : DB → List VoteCall → Option Nat → Option Nat
  | _, [], acc => acc
  | db, c :: cs, acc =>
      match voteOnPoll db c.poll_id c.option_id c.session_id with
      | .error _ => lastSuccOpt pid aid db cs acc
      | .ok db' =>
          let hit : Bool :=
            c.poll_id == pid &&
              (match findPoll db c.poll_id with
               | some poll => resolveId db poll.event_id c.session_id == aid
               | none => false)
          lastSuccOpt pid aid db' cs (if hit then some c.option_id else acc)

/-!
List-level lemmas about `eraseFirstP`, `find?` and `filter`.
-/

/-- Deleting the first match is a no-op when no row matches. -/
theorem eraseFirstP_eq_self (p : α → Bool) (l : List α) (h : l.find? p = none) :
    eraseFirstP p l = l := by
  induction l with
  | nil => rfl
  | cons x rest ih =>
      rw [List.find?_cons] at h
      cases hx : p x with
      | true => rw [hx] at h; cases h
      | false =>
          rw [hx] at h
          simp only [eraseFirstP, hx, Bool.false_eq_true, if_false]
          rw [ih h]

/-- Deleting a row whose predicate is disjoint from the filter leaves the
filter unchanged. -/
theorem filter_eraseFirstP_disjoint (p q : α → Bool) (l : List α)
    (h : ∀ x, p x = true → q x = false) :
    (eraseFirstP p l).filter q = l.filter q := by
  induction l with
  | nil => rfl
  | cons x rest ih =>
      cases hx : p x with
      | true => simp [eraseFirstP, hx, List.filter_cons, h x hx]
      | false => simp [eraseFirstP, hx, List.filter_cons, ih]

/-- Deleting the first match drops the head of the filtered list. -/
theorem filter_eraseFirstP_self (p : α → Bool) (l : List α) :
    (eraseFirstP p l).filter p = (l.filter p).tail := by
  induction l with
  | nil => rfl
  | cons x rest ih =>
      cases hx : p x with
      | true => simp [eraseFirstP, hx, List.filter_cons]
      | false => simp [eraseFirstP, hx, List.filter_cons, ih]

/-- Deleting the first match shortens any coarser filter by one. -/
theorem filter_eraseFirstP_length (p q : α → Bool) (l : List α)
    (himp : ∀ x, p x = true → q x = true) (h : l.find? p ≠ none) :
    ((eraseFirstP p l).filter q).length + 1 = (l.filter q).length := by
  induction l with
  | nil => simp [List.find?] at h
  | cons x rest ih =>
      cases hx : p x with
      | true => simp [eraseFirstP, hx, List.filter_cons, himp x hx]
      | false =>
          rw [List.find?_cons, hx] at h
          cases hqx : q x with
          | true => simpa [eraseFirstP, hx, List.filter_cons, hqx] using ih h
          | false => simpa [eraseFirstP, hx, List.filter_cons, hqx] using ih h

/-- A list ending in a match always has a first match. -/
theorem find?_append_singleton_ne_none (p : α → Bool) (l : List α) (x : α)
    (hx : p x = true) : (l ++ [x]).find? p ≠ none := by
  intro h
  rw [List.find?_eq_none] at h
  exact absurd hx (by simpa using h x (by simp))

/-- Deleting the first match from `l ++ [x]` removes `x` when `l` has no
match and `x` matches. -/
theorem eraseFirstP_append_of_none (p : α → Bool) (l : List α) (x : α)
    (h : l.find? p = none) (hx : p x = true) :
    eraseFirstP p (l ++ [x]) = l := by
  induction l with
  | nil => simp [eraseFirstP, hx]
  | cons y rest ih =>
      rw [List.find?_cons] at h
      cases hy : p y with
      | true => rw [hy] at h; cases h
      | false =>
          rw [hy] at h
          simp only [List.cons_append, eraseFirstP, hy, Bool.false_eq_true, if_false]
          show y :: eraseFirstP p (rest ++ [x]) = y :: rest
          rw [ih h]

/-!
Projection lemmas for `getOrCreateAttendee`: it reads and writes only the
`attendees` table and the id allocator.
-/

theorem ga_polls (db : DB) (eid : Nat) (sid : String) :
    (getOrCreateAttendee db eid sid).2.polls = db.polls := by
  unfold getOrCreateAttendee; cases findAttendee db sid eid <;> rfl

theorem ga_options (db : DB) (eid : Nat) (sid : String) :
    (getOrCreateAttendee db eid sid).2.options = db.options := by
  unfold getOrCreateAttendee; cases findAttendee db sid eid <;> rfl

theorem ga_responses (db : DB) (eid : Nat) (sid : String) :
    (getOrCreateAttendee db eid sid).2.responses = db.responses := by
  unfold getOrCreateAttendee; cases findAttendee db sid eid <;> rfl

theorem ga_questions (db : DB) (eid : Nat) (sid : String) :
    (getOrCreateAttendee db eid sid).2.questions = db.questions := by
  unfold getOrCreateAttendee; cases findAttendee db sid eid <;> rfl

theorem ga_question_votes (db : DB) (eid : Nat) (sid : String) :
    (getOrCreateAttendee db eid sid).2.question_votes = db.question_votes := by
  unfold getOrCreateAttendee; cases findAttendee db sid eid <;> rfl

/-- After get-or-create, the session is always found and resolves to the
returned row. -/
theorem find?_attendees_ga (db : DB) (eid : Nat) (sid : String) :
    ((getOrCreateAttendee db eid sid).2.attendees).find?
        (fun a => a.session_id == sid && a.event_id == eid) =
      some (getOrCreateAttendee db eid sid).1 := by
  unfold getOrCreateAttendee
  cases h : findAttendee db sid eid with
  | some a => unfold findAttendee at h; simpa using h
  | none =>
      unfold findAttendee at h
      simp [List.find?_append, h]

/-- Resolution is stable: any later state with the same `attendees` table
resolves the session to the same attendee row, without creating another. -/
theorem getOrCreate_stable (db : DB) (eid : Nat) (sid : String) (db2 : DB)
    (h : db2.attendees = (getOrCreateAttendee db eid sid).2.attendees) :
    getOrCreateAttendee db2 eid sid = ((getOrCreateAttendee db eid sid).1, db2) := by
  have hf : findAttendee db2 sid eid = some (getOrCreateAttendee db eid sid).1 := by
    unfold findAttendee
    rw [h]
    exact find?_attendees_ga db eid sid
  conv_lhs => rw [getOrCreateAttendee, hf]

theorem resolveId_stable (db : DB) (eid : Nat) (sid : String) (db2 : DB)
    (h : db2.attendees = (getOrCreateAttendee db eid sid).2.attendees) :
    resolveId db2 eid sid = resolveId db eid sid := by
  unfold resolveId
  rw [getOrCreate_stable db eid sid db2 h]

/-- Presence of the (question, attendee) upvote row — the toggle state. -/
def hasQVote (db : DB) (qid aid : Nat) : Bool :=
  (db.question_votes.find? (qPairPred qid aid)).isSome

/-- Number of `QuestionVote` rows of one (question, attendee) pair. -/
def qPairCount (db : DB) (qid aid : Nat) : Nat :=
  (db.question_votes.filter (qPairPred qid aid)).length

/-!
Fixture stores used by the witness theorems.
-/

/-- A store holding one active single-choice poll with options A and B. -/
def dbSingle : DB :=
  { polls := [⟨1, 1, "q", PollType.single, PollStatus.active⟩],
    options := [⟨1, 1, "A", 0⟩, ⟨2, 1, "B", 1⟩],
    attendees := [], responses := [], questions := [], question_votes := [],
    nextAttendeeId := 1, nextPollId := 2, nextOptionId := 3 }

/-- A store holding one active multiple-choice poll with options A and B. -/
def dbMulti : DB :=
  { polls := [⟨1, 1, "q", PollType.multiple, PollStatus.active⟩],
    options := [⟨1, 1, "A", 0⟩, ⟨2, 1, "B", 1⟩],
    attendees := [], responses := [], questions := [], question_votes := [],
    nextAttendeeId := 1, nextPollId := 2, nextOptionId := 3 }

/-- `dbMulti` after session s voted for option 1. -/
def dbMultiVoted : DB :=
  { polls := [⟨1, 1, "q", PollType.multiple, PollStatus.active⟩],
    options := [⟨1, 1, "A", 0⟩, ⟨2, 1, "B", 1⟩],
    attendees := [⟨1, 1, "s"⟩], responses := [⟨1, 1, 1⟩],
    questions := [], question_votes := [],
    nextAttendeeId := 2, nextPollId := 2, nextOptionId := 3 }

/-- A store holding one question and no upvotes. -/
def dbQfix : DB :=
  { polls := [], options := [], attendees := [], responses := [],
    questions := [⟨1, 1, 5, "why", QuestionStatus.submitted⟩], question_votes := [],
    nextAttendeeId := 1, nextPollId := 1, nextOptionId := 1 }

/-- `dbQfix` after session x upvoted question 1. -/
def dbQfixAfter : DB :=
  { polls := [], options := [], attendees := [⟨1, 1, "x"⟩], responses := [],
    questions := [⟨1, 1, 5, "why", QuestionStatus.submitted⟩], question_votes := [⟨1, 1⟩],
    nextAttendeeId := 2, nextPollId := 1, nextOptionId := 1 }

/-- A store holding one draft single-choice poll. -/
def dbDraft : DB :=
  { polls := [⟨1, 1, "q", PollType.single, PollStatus.draft⟩],
    options := [⟨1, 1, "A", 0⟩, ⟨2, 1, "B", 1⟩],
    attendees := [], responses := [], questions := [], question_votes := [],
    nextAttendeeId := 1, nextPollId := 2, nextOptionId := 3 }

/-- A store holding one closed single-choice poll. -/
def dbClosed : DB :=
  { polls := [⟨1, 1, "q", PollType.single, PollStatus.closed⟩],
    options := [], attendees := [], responses := [], questions := [], question_votes := [],
    nextAttendeeId := 1, nextPollId := 2, nextOptionId := 3 }

/-- An empty store. -/
def dbEmptyStore : DB :=
  { polls := [], options := [], attendees := [], responses := [], questions := [],
    question_votes := [], nextAttendeeId := 1, nextPollId := 1, nextOptionId := 1 }

theorem findOption_ga (db : DB) (eid : Nat) (sid : String) (oid pid : Nat) :
    findOption (getOrCreateAttendee db eid sid).2 oid pid = findOption db oid pid := by
  unfold findOption; rw [ga_options]

theorem findVote_ga (db : DB) (eid : Nat) (sid : String) (pid oid aid : Nat) :
    findVote (getOrCreateAttendee db eid sid).2 pid oid aid = findVote db pid oid aid := by
  unfold findVote; rw [ga_responses]

theorem firstResponseBy_ga (db : DB) (eid : Nat) (sid : String) (pid aid : Nat) :
    firstResponseBy (getOrCreateAttendee db eid sid).2 pid aid = firstResponseBy db pid aid := by
  unfold firstResponseBy; rw [ga_responses]

theorem voteOnPoll_ok_elim {db : DB} {pid oid : Nat} {sid : String} {db' : DB}
    (h : voteOnPoll db pid oid sid = .ok db') :
    ∃ poll, findPoll db pid = some poll ∧ poll.status = PollStatus.active ∧
      (∃ opt, findOption db oid pid = some opt) ∧
      findVote db pid oid (resolveId db poll.event_id sid) = none ∧
      db' = { (getOrCreateAttendee db poll.event_id sid).2 with
              responses :=
                (if poll.poll_type = PollType.single then
                    eraseFirstP (pairPred pid (resolveId db poll.event_id sid)) db.responses
                  else db.responses) ++
                  [⟨pid, oid, resolveId db poll.event_id sid⟩] } := by
  unfold voteOnPoll at h
  cases hfp : findPoll db pid with
  | none => rw [hfp] at h; cases h
  | some poll =>
      rw [hfp] at h
      by_cases hst : poll.status = PollStatus.active
      case neg => simp [hst] at h
      simp only [hst, ne_eq, not_true_eq_false, if_false] at h
      rw [findOption_ga] at h
      cases hop : findOption db oid pid with
      | none => rw [hop] at h; cases h
      | some opt =>
          rw [hop] at h
          have hr : (getOrCreateAttendee db poll.event_id sid).1.id
              = resolveId db poll.event_id sid := rfl
          rw [findVote_ga, hr] at h
          cases hdv : findVote db pid oid (resolveId db poll.event_id sid) with
          | some v => rw [hdv] at h; cases h
          | none =>
              rw [hdv] at h
              rw [firstResponseBy_ga, ga_responses] at h
              refine ⟨poll, rfl, hst, ⟨opt, rfl⟩, hdv, ?_⟩
              cases h
              cases hty : poll.poll_type with
              | single =>
                  rw [hty] at *
                  cases hpend : firstResponseBy db pid (resolveId db poll.event_id sid) with
                  | some x => simp [hpend, hr]
                  | none =>
                      simp [hpend, hr]
                      rw [eraseFirstP_eq_self]
                      exact hpend
              | multiple => simp [hty, hr]

theorem voteOnPoll_ok_polls {db db' : DB} {pid oid : Nat} {sid : String}
    (h : voteOnPoll db pid oid sid = .ok db') : db'.polls = db.polls := by
  obtain ⟨poll, _, _, _, _, hdb⟩ := voteOnPoll_ok_elim h
  rw [hdb]
  exact ga_polls db poll.event_id sid

theorem pollTypeOf_voteOnPoll_ok {db db' : DB} {pid oid qid : Nat} {sid : String}
    (h : voteOnPoll db pid oid sid = .ok db') : pollTypeOf db' qid = pollTypeOf db qid := by
  unfold pollTypeOf findPoll
  rw [voteOnPoll_ok_polls h]

theorem beq_self_nat (n : Nat) : (n == n) = true := by simp


theorem filter_shape (q p : α → Bool) (l : List α) (x : α) (c : Prop) [Decidable c]
    (hdisj : ∀ y, p y = true → q y = false) (hx : q x = false) :
    ((if c then eraseFirstP p l else l) ++ [x]).filter q = l.filter q := by
  rw [List.filter_append]
  have h1 : ((if c then eraseFirstP p l else l)).filter q = l.filter q := by
    split
    · exact filter_eraseFirstP_disjoint p q l hdisj
    · rfl
  rw [h1]
  simp [List.filter_cons, hx]

theorem vote_step_pair {db db' : DB} {c : VoteCall} {pid aid : Nat} {acc : Option Nat}
    (hty : pollTypeOf db pid = some PollType.single)
    (hinv : pairResponses db pid aid = optToList pid aid acc)
    (hv : voteOnPoll db c.poll_id c.option_id c.session_id = .ok db') :
    pairResponses db' pid aid =
      optToList pid aid
        (if (c.poll_id == pid &&
              (match findPoll db c.poll_id with
               | some poll => resolveId db poll.event_id c.session_id == aid
               | none => false) : Bool) = true
         then some c.option_id else acc) := by
  obtain ⟨poll, hfp, hact, hopt, hdv, hdb⟩ := voteOnPoll_ok_elim hv
  rw [hfp]
  have hresp : db'.responses =
      (if poll.poll_type = PollType.single then
          eraseFirstP (pairPred c.poll_id (resolveId db poll.event_id c.session_id)) db.responses
        else db.responses) ++
        [⟨c.poll_id, c.option_id, resolveId db poll.event_id c.session_id⟩] := by
    rw [hdb]
  by_cases hcp : c.poll_id = pid
  · subst hcp
    by_cases hra : resolveId db poll.event_id c.session_id = aid
    · -- the call targets exactly this (poll, attendee) pair: replace semantics
      have hpt : poll.poll_type = PollType.single := by
        rw [pollTypeOf, hfp] at hty
        simpa using hty
      rw [hra, hpt, if_pos rfl] at hresp
      have hcond : (c.poll_id == c.poll_id &&
          (resolveId db poll.event_id c.session_id == aid) : Bool) = true := by
        simp [hra]
      rw [if_pos hcond]
      unfold pairResponses at hinv ⊢
      rw [hresp, List.filter_append, filter_eraseFirstP_self, hinv]
      cases acc <;> simp [optToList, pairPred]
    · -- same poll, different attendee: this pair is untouched
      have hne : (resolveId db poll.event_id c.session_id == aid) = false := by
        simpa using hra
      simp only [hne, Bool.and_false, Bool.false_eq_true, if_false]
      unfold pairResponses at hinv ⊢
      rw [hresp]
      refine (filter_shape _ _ _ _ _ ?_ ?_).trans hinv
      · intro y hy
        simp only [pairPred] at hy ⊢
        have : y.attendee_id = resolveId db poll.event_id c.session_id := by
          have h2 := (Bool.and_elim_right hy)
          simpa using h2
        simp [this, hra]
      · simp [pairPred, hra]
  · -- a call on a different poll never touches this pair
    have hne : (c.poll_id == pid) = false := by simpa using hcp
    simp only [hne, Bool.false_and, Bool.false_eq_true, if_false]
    unfold pairResponses at hinv ⊢
    rw [hresp]
    refine (filter_shape _ _ _ _ _ ?_ ?_).trans hinv
    · intro y hy
      simp only [pairPred] at hy ⊢
      have : y.poll_id = c.poll_id := by
        have h1 := (Bool.and_elim_left hy)
        simpa using h1
      simp [this, hcp]
    · simp [pairPred, hcp]

theorem traceInv (pid aid : Nat) (cs : List VoteCall) :
    ∀ (db : DB) (acc : Option Nat),
      pollTypeOf db pid = some PollType.single →
      pairResponses db pid aid = optToList pid aid acc →
      pairResponses (runTrace db cs) pid aid =
        optToList pid aid (lastSuccOpt pid aid db cs acc) := by
  induction cs with
  | nil =>
      intro db acc _ hinv
      simpa [runTrace, lastSuccOpt] using hinv
  | cons c rest ih =>
      intro db acc hty hinv
      simp only [runTrace, lastSuccOpt]
      cases hv : voteOnPoll db c.poll_id c.option_id c.session_id with
      | error e =>
          have ha : applyCall db c = db := by rw [applyCall, hv]
          rw [ha]
          exact ih db acc hty hinv
      | ok db' =>
          have ha : applyCall db c = db' := by rw [applyCall, hv]
          rw [ha]
          exact ih db' _ ((pollTypeOf_voteOnPoll_ok hv).trans hty)
            (vote_step_pair hty hinv hv)

/-- Helper: a raised HTTPException leaves the committed store unchanged. -/
theorem applyCall_of_error (db : DB) (c : VoteCall) (e : ServiceError)
    (h : voteOnPoll db c.poll_id c.option_id c.session_id = .error e) :
    applyCall db c = db := by
  rw [applyCall, h]

/-- Helper: the duplicate-vote raise site fires whenever the earlier checks
pass and a response row for (poll, option, attendee) already exists. -/
theorem voteOnPoll_error_of_duplicate {db : DB} {pid oid : Nat} {sid : String} {poll : PollRec}
    (hfp : findPoll db pid = some poll) (hact : poll.status = PollStatus.active)
    (hopt : (findOption db oid pid).isSome = true)
    (hdup : findVote db pid oid (resolveId db poll.event_id sid) ≠ none) :
    voteOnPoll db pid oid sid = .error .duplicateVote := by
  unfold voteOnPoll
  rw [hfp]
  simp only [hact, ne_eq, not_true_eq_false, if_false]
  rw [findOption_ga]
  obtain ⟨opt, hop⟩ := Option.isSome_iff_exists.mp hopt
  rw [hop]
  have hr : (getOrCreateAttendee db poll.event_id sid).1.id
      = resolveId db poll.event_id sid := rfl
  rw [findVote_ga, hr]
  obtain ⟨v, hv⟩ := Option.ne_none_iff_exists'.mp hdup
  rw [hv]

theorem voteOnPoll_ok_options {db db' : DB} {pid oid : Nat} {sid : String}
    (h : voteOnPoll db pid oid sid = .ok db') : db'.options = db.options := by
  obtain ⟨poll, _, _, _, _, hdb⟩ := voteOnPoll_ok_elim h
  rw [hdb]
  exact ga_options db poll.event_id sid

/-- C2: on a multiple-choice poll, a second vote_on_poll call with the same
(poll, option, attendee) triple fails with DuplicateVote; the failed call
commits nothing, so the set of PollResponse rows (hence every vote count) is
unchanged; and a further vote by the same attendee for a different option
coexists with the first. -/
theorem multi_choice_duplicate_vote (db db' : DB) (pid oid : Nat) (sid : String)
    (hty : pollTypeOf db pid = some PollType.multiple)
    (h : voteOnPoll db pid oid sid = .ok db') :
    voteOnPoll db' pid oid sid = .error .duplicateVote ∧
    applyCall db' ⟨pid, oid, sid⟩ = db' ∧
    ∃ a, db'.responses = db.responses ++ [⟨pid, oid, a⟩] ∧
      ∀ (o2 : Nat) (db'' : DB), o2 ≠ oid → voteOnPoll db' pid o2 sid = .ok db'' →
        (⟨pid, oid, a⟩ : PollResponseRec) ∈ db''.responses ∧
        (⟨pid, o2, a⟩ : PollResponseRec) ∈ db''.responses := by
  obtain ⟨poll, hfp, hact, ⟨opt, hop⟩, hdv, hdb⟩ := voteOnPoll_ok_elim h
  have hpt : poll.poll_type = PollType.multiple := by
    rw [pollTypeOf, hfp] at hty
    simpa using hty
  have hresp : db'.responses =
      db.responses ++ [⟨pid, oid, resolveId db poll.event_id sid⟩] := by
    rw [hdb, hpt]
    simp
  have hpolls : db'.polls = db.polls := voteOnPoll_ok_polls h
  have hopts : db'.options = db.options := voteOnPoll_ok_options h
  have hatt : db'.attendees = (getOrCreateAttendee db poll.event_id sid).2.attendees := by
    rw [hdb]
  have hfp' : findPoll db' pid = some poll := by
    unfold findPoll; rw [hpolls]; exact hfp
  have hop' : findOption db' oid pid = some opt := by
    unfold findOption; rw [hopts]; exact hop
  have hres : resolveId db' poll.event_id sid = resolveId db poll.event_id sid :=
    resolveId_stable db poll.event_id sid db' hatt
  have hdup : findVote db' pid oid (resolveId db' poll.event_id sid) ≠ none := by
    rw [hres]
    unfold findVote
    rw [hresp]
    apply find?_append_singleton_ne_none
    simp
  have herr : voteOnPoll db' pid oid sid = .error .duplicateVote :=
    voteOnPoll_error_of_duplicate hfp' hact (by rw [hop']; rfl) hdup
  refine ⟨herr, applyCall_of_error db' ⟨pid, oid, sid⟩ .duplicateVote herr,
    resolveId db poll.event_id sid, hresp, ?_⟩
  intro o2 db'' ho2 hv2
  obtain ⟨poll2, hfp2, hact2, _, _, hdb2⟩ := voteOnPoll_ok_elim hv2
  have hpoll2 : poll2 = poll := by
    rw [hfp'] at hfp2
    exact (Option.some_inj.mp hfp2).symm
  subst hpoll2
  have hresp2 : db''.responses =
      db'.responses ++ [⟨pid, o2, resolveId db' poll2.event_id sid⟩] := by
    rw [hdb2, hpt]
    simp
  rw [hresp2, hres, hresp]
  constructor
  · simp
  · simp

/-- Helper: voting on a poll that exists but is not active raises the
InvalidState HTTPException before touching anything. -/
theorem voteOnPoll_invalid_state {db : DB} {pid oid : Nat} {sid : String} {poll : PollRec}
    (hfp : findPoll db pid = some poll) (hst : poll.status ≠ PollStatus.active) :
    voteOnPoll db pid oid sid = .error .invalidState := by
  unfold voteOnPoll
  rw [hfp]
  simp [hst]


theorem hasQVote_true_iff (db : DB) (qid aid : Nat) :
    hasQVote db qid aid = true ↔ db.question_votes.find? (qPairPred qid aid) ≠ none := by
  unfold hasQVote
  cases h : db.question_votes.find? (qPairPred qid aid) <;> simp [h]

theorem hasQVote_false_iff (db : DB) (qid aid : Nat) :
    hasQVote db qid aid = false ↔ db.question_votes.find? (qPairPred qid aid) = none := by
  unfold hasQVote
  cases h : db.question_votes.find? (qPairPred qid aid) <;> simp [h]

theorem tail_eq_nil_of_length_le_one {l : List α} (h : l.length ≤ 1) : l.tail = [] := by
  cases l with
  | nil => rfl
  | cons x rest =>
      simp only [List.length_cons] at h
      have h0 : rest.length = 0 := by omega
      simp only [List.tail_cons]
      exact List.length_eq_zero.mp h0

theorem upvote_ok_elim {db : DB} {qid : Nat} {sid : String} {eid : Nat}
    {r : UpvoteResult} {db1 : DB}
    (h : upvoteQuestion db qid sid eid = .ok (r, db1)) :
    ∃ q, findQuestion db qid = some q ∧
      ((hasQVote db qid (resolveId db eid sid) = true ∧
          r = ⟨"removed", qid, questionUpvoteCount db1 qid⟩ ∧
          db1 = { (getOrCreateAttendee db eid sid).2 with
                  question_votes := eraseFirstP (qPairPred qid (resolveId db eid sid))
                    db.question_votes }) ∨
       (hasQVote db qid (resolveId db eid sid) = false ∧
          r = ⟨"added", qid, questionUpvoteCount db1 qid⟩ ∧
          db1 = { (getOrCreateAttendee db eid sid).2 with
                  question_votes := db.question_votes ++
                    [⟨qid, resolveId db eid sid⟩] })) := by
  unfold upvoteQuestion at h
  cases hq : findQuestion db qid with
  | none => rw [hq] at h; cases h
  | some q =>
      rw [hq] at h
      simp only [] at h
      have hr : (getOrCreateAttendee db eid sid).1.id = resolveId db eid sid := rfl
      rw [ga_question_votes, hr] at h
      cases hfv : db.question_votes.find? (qPairPred qid (resolveId db eid sid)) with
      | some v =>
          rw [hfv] at h
          refine ⟨q, rfl, Or.inl ⟨by rw [hasQVote, hfv]; rfl, ?_, ?_⟩⟩
          · cases h; rfl
          · cases h; rfl
      | none =>
          rw [hfv] at h
          refine ⟨q, rfl, Or.inr ⟨by rw [hasQVote, hfv]; rfl, ?_, ?_⟩⟩
          · cases h; rfl
          · cases h; rfl

theorem upvote_ok_of_found {db : DB} {qid : Nat} {sid : String} {eid : Nat} {q : QuestionRec}
    (h : findQuestion db qid = some q) :
    ∃ r db2, upvoteQuestion db qid sid eid = .ok (r, db2) := by
  cases hv : upvoteQuestion db qid sid eid with
  | ok p => exact ⟨p.1, p.2, by simp [hv]⟩
  | error e =>
      exfalso
      unfold upvoteQuestion at hv
      rw [h] at hv
      simp only [] at hv
      cases hfv : (getOrCreateAttendee db eid sid).2.question_votes.find?
          (qPairPred qid (getOrCreateAttendee db eid sid).1.id) with
      | some v => rw [hfv] at hv; cases hv
      | none => rw [hfv] at hv; cases hv

theorem find?_eq_none_iff_filter (p : α → Bool) (l : List α) :
    l.find? p = none ↔ l.filter p = [] := by
  rw [List.find?_eq_none, List.filter_eq_nil_iff]

/-- C3: upvote_question is a toggle.  Under the data-model invariant of at
most one QuestionVote row per (question, attendee) pair: the call returns
action removed exactly when a row existed (added exactly when none did), the
returned upvote_count equals the number of QuestionVote rows for the
question after the call, the row's presence flips, a second call always
succeeds, and two successive calls restore both the question's upvote count
and the pair's membership state. -/
theorem upvote_toggle_involution (db : DB) (qid : Nat) (sid : String) (eid : Nat)
    (r : UpvoteResult) (db1 : DB)
    (hinv : qPairCount db qid (resolveId db eid sid) ≤ 1)
    (h : upvoteQuestion db qid sid eid = .ok (r, db1)) :
    (r.action = "removed" ↔ hasQVote db qid (resolveId db eid sid) = true) ∧
    (r.action = "added" ↔ hasQVote db qid (resolveId db eid sid) = false) ∧
    r.upvote_count = questionUpvoteCount db1 qid ∧
    hasQVote db1 qid (resolveId db eid sid) = !(hasQVote db qid (resolveId db eid sid)) ∧
    (∃ r2 db2, upvoteQuestion db1 qid sid eid = .ok (r2, db2)) ∧
    (∀ (r2 : UpvoteResult) (db2 : DB), upvoteQuestion db1 qid sid eid = .ok (r2, db2) →
        questionUpvoteCount db2 qid = questionUpvoteCount db qid ∧
        hasQVote db2 qid (resolveId db eid sid) = hasQVote db qid (resolveId db eid sid)) := by
  obtain ⟨q, hq, hcase⟩ := upvote_ok_elim h
  have hatt1 : db1.attendees = (getOrCreateAttendee db eid sid).2.attendees := by
    rcases hcase with ⟨_, _, hdb1⟩ | ⟨_, _, hdb1⟩ <;> rw [hdb1]
  have hres1 : resolveId db1 eid sid = resolveId db eid sid :=
    resolveId_stable db eid sid db1 hatt1
  have hqs1 : db1.questions = db.questions := by
    rcases hcase with ⟨_, _, hdb1⟩ | ⟨_, _, hdb1⟩ <;>
      (rw [hdb1]; exact ga_questions db eid sid)
  have hq1 : findQuestion db1 qid = some q := by
    unfold findQuestion; rw [hqs1]; exact hq
  rcases hcase with ⟨hyes, hr, hdb1⟩ | ⟨hno, hr, hdb1⟩
  · -- a row existed: this call removes it
    have hvotes1 : db1.question_votes =
        eraseFirstP (qPairPred qid (resolveId db eid sid)) db.question_votes := by
      rw [hdb1]
    have hgone : db1.question_votes.find? (qPairPred qid (resolveId db eid sid)) = none := by
      rw [hvotes1, find?_eq_none_iff_filter, filter_eraseFirstP_self]
      exact tail_eq_nil_of_length_le_one hinv
    have hflip : hasQVote db1 qid (resolveId db eid sid) = false := by
      unfold hasQVote; rw [hgone]; rfl
    refine ⟨by simp [hr, hyes], by simp [hr, hyes], by rw [hr], by rw [hflip, hyes]; rfl,
      upvote_ok_of_found hq1, ?_⟩
    intro r2 db2 h2
    obtain ⟨q2, hq2, hcase2⟩ := upvote_ok_elim h2
    rw [hres1] at hcase2
    rcases hcase2 with ⟨htrue, _, _⟩ | ⟨_, hr2, hdb2⟩
    · rw [hflip] at htrue; cases htrue
    · have hv2 : db2.question_votes =
          db1.question_votes ++ [⟨qid, resolveId db eid sid⟩] := by
        rw [hdb2]
      constructor
      · unfold questionUpvoteCount
        rw [hv2, hvotes1, List.filter_append, List.length_append]
        have hsing : (([⟨qid, resolveId db eid sid⟩] : List QuestionVoteRec).filter
            (fun v => v.question_id == qid)).length = 1 := by simp
        rw [hsing]
        exact filter_eraseFirstP_length _ _ _
          (by intro x hx; unfold qPairPred at hx; simpa using (Bool.and_elim_left hx))
          (hasQVote_true_iff db qid (resolveId db eid sid) |>.mp hyes)
      · have hne : db2.question_votes.find? (qPairPred qid (resolveId db eid sid)) ≠ none := by
          rw [hv2]
          apply find?_append_singleton_ne_none
          simp [qPairPred]
        rw [hyes]
        unfold hasQVote
        cases hfind : db2.question_votes.find? (qPairPred qid (resolveId db eid sid)) with
        | some v => rfl
        | none => exact absurd hfind hne
  · -- no row existed: this call inserts one
    have hvotes1 : db1.question_votes =
        db.question_votes ++ [⟨qid, resolveId db eid sid⟩] := by
      rw [hdb1]
    have hthere : db1.question_votes.find? (qPairPred qid (resolveId db eid sid)) ≠ none := by
      rw [hvotes1]
      apply find?_append_singleton_ne_none
      simp [qPairPred]
    have hflip : hasQVote db1 qid (resolveId db eid sid) = true := by
      unfold hasQVote
      cases hfind : db1.question_votes.find? (qPairPred qid (resolveId db eid sid)) with
      | some v => rfl
      | none => exact absurd hfind hthere
    refine ⟨by simp [hr, hno], by simp [hr, hno], by rw [hr], by rw [hflip, hno]; rfl,
      upvote_ok_of_found hq1, ?_⟩
    intro r2 db2 h2
    obtain ⟨q2, hq2, hcase2⟩ := upvote_ok_elim h2
    rw [hres1] at hcase2
    rcases hcase2 with ⟨_, hr2, hdb2⟩ | ⟨hfalse, _, _⟩
    · have hv2 : db2.question_votes =
          eraseFirstP (qPairPred qid (resolveId db eid sid)) db1.question_votes := by
        rw [hdb2]
      have hrestore : db2.question_votes = db.question_votes := by
        rw [hv2, hvotes1]
        exact eraseFirstP_append_of_none _ _ _
          ((hasQVote_false_iff db qid (resolveId db eid sid)).mp hno)
          (by simp [qPairPred])
      constructor
      · unfold questionUpvoteCount; rw [hrestore]
      · unfold hasQVote; rw [hrestore]
    · rw [hflip] at hfalse; cases hfalse

/-- C4: for every poll whose status is not active (draft or closed),
vote_on_poll fails with InvalidState for every option and attendee, and the
failed call commits nothing, leaving all PollResponse and Attendee state
unchanged. -/
theorem vote_requires_active_status (db : DB) (pid oid : Nat) (sid : String) (poll : PollRec)
    (hfind : findPoll db pid = some poll) (hst : poll.status ≠ PollStatus.active) :
    voteOnPoll db pid oid sid = .error .invalidState ∧
    applyCall db ⟨pid, oid, sid⟩ = db := by
  have he := @voteOnPoll_invalid_state db pid oid sid poll hfind hst
  exact ⟨he, applyCall_of_error db ⟨pid, oid, sid⟩ .invalidState he⟩

/-!
Lemmas about the room map.
-/

theorem findRoom_setRoom_self (m : Manager) (eid : Nat) (room r : List Nat)
    (h : findRoom m eid = some room) : findRoom (setRoom eid r m) eid = some r := by
  induction m with
  | nil => cases h
  | cons e rest ih =>
      unfold findRoom at h ⊢
      rw [List.find?_cons] at h
      cases he : (e.1 == eid) with
      | true =>
          unfold setRoom
          rw [if_pos he, List.find?_cons]
          simp
      | false =>
          rw [he] at h
          unfold setRoom
          rw [if_neg (by simp [he]), List.find?_cons, he]
          exact ih h

theorem findRoom_setRoom_ne (m : Manager) (eid e2 : Nat) (r : List Nat) (hne : e2 ≠ eid) :
    findRoom (setRoom eid r m) e2 = findRoom m e2 := by
  induction m with
  | nil => rfl
  | cons e rest ih =>
      unfold findRoom at ih ⊢
      unfold setRoom
      cases he : (e.1 == eid) with
      | true =>
          rw [if_pos rfl, List.find?_cons, List.find?_cons]
          have h1 : e.1 = eid := by simpa using he
          have h2 : (eid == e2) = false := by simp [Ne.symm hne]
          rw [h2, ← h1, (show (e.1 == e2) = false by simp [h1, Ne.symm hne])]
      | false =>
          rw [if_neg (by simp), List.find?_cons, List.find?_cons]
          cases he2 : (e.1 == e2) with
          | true => rfl
          | false => exact ih

theorem setRoom_self (m : Manager) (eid : Nat) (room : List Nat)
    (h : findRoom m eid = some room) : setRoom eid room m = m := by
  induction m with
  | nil => rfl
  | cons e rest ih =>
      unfold findRoom at h ih
      rw [List.find?_cons] at h
      unfold setRoom
      cases he : (e.1 == eid) with
      | true =>
          rw [if_pos rfl]
          rw [he] at h
          have h1 : e.1 = eid := by simpa using he
          have h2 : e.2 = room := by simpa using h
          rw [← h1, ← h2]
      | false =>
          rw [he] at h
          rw [if_neg (by simp), ih h]

theorem findRoom_eq_none_of_not_mem (m : Manager) (eid : Nat)
    (h : eid ∉ m.map Prod.fst) : findRoom m eid = none := by
  unfold findRoom
  rw [List.find?_eq_none.mpr]
  · rfl
  · intro e he
    simp only [beq_iff_eq]
    intro hiff
    exact h (by rw [← hiff]; exact List.mem_map_of_mem Prod.fst he)

theorem findRoom_eraseRoom_self (m : Manager) (eid : Nat)
    (hkeys : (m.map Prod.fst).Nodup) : findRoom (eraseRoom eid m) eid = none := by
  induction m with
  | nil => rfl
  | cons e rest ih =>
      rw [List.map_cons, List.nodup_cons] at hkeys
      unfold eraseRoom
      cases he : (e.1 == eid) with
      | true =>
          rw [if_pos rfl]
          have h1 : e.1 = eid := by simpa using he
          exact findRoom_eq_none_of_not_mem rest eid (h1 ▸ hkeys.1)
      | false =>
          rw [if_neg (by simp)]
          unfold findRoom
          rw [List.find?_cons, he]
          exact ih hkeys.2

/-- C5: broadcast_to_event delivers the message exactly to the non-failing
members of the event's room (every currently-joined connection is attempted,
and one failed send does not stop delivery to the rest), delivers to no
connection outside that room, prunes the failed connections from the room as
a side effect, and leaves every other event's room untouched. -/
theorem broadcast_fanout_isolation (m : Manager) (eid : Nat) (fails : Nat → Bool) (room : List Nat)
    (h : findRoom m eid = some room) :
    (broadcast_to_event m eid fails).1 = room.filter (fun c => !(fails c)) ∧
    (∀ c ∈ room, fails c = false → c ∈ (broadcast_to_event m eid fails).1) ∧
    (∀ c ∈ (broadcast_to_event m eid fails).1, c ∈ room) ∧
    findRoom (broadcast_to_event m eid fails).2 eid =
      some (room.filter (fun c => !(fails c))) ∧
    (∀ e2, e2 ≠ eid → findRoom (broadcast_to_event m eid fails).2 e2 = findRoom m e2) := by
  unfold broadcast_to_event
  rw [h]
  refine ⟨rfl, ?_, ?_, ?_, ?_⟩
  · intro c hc hf
    simp only []
    exact List.mem_filter.mpr ⟨hc, by rw [hf]; rfl⟩
  · intro c hc
    simp only [] at hc
    exact (List.mem_filter.mp hc).1
  · exact findRoom_setRoom_self m eid room _ h
  · intro e2 hne
    exact findRoom_setRoom_ne m eid e2 _ hne

theorem receiveLoop_length (eid : Nat) (fs : List (Frame α)) :
    (receiveLoop eid fs).length = fs.length := by
  induction fs with
  | nil => rfl
  | cons f rest ih => cases f <;> simp [receiveLoop, ih]

/-- C9: an inbound ping frame is answered with a pong whose timestamp field
echoes the client-supplied value exactly; a frame of any unrecognized type
is answered with an error frame describing the problem; and the receive loop
answers every frame of the stream — the connection stays open. -/
theorem ws_ping_echo_unknown_error (eid : Nat) (ts : Option Int) (m : InMsg Int) (fs : List (Frame Int))
    (h1 : m.mtype ≠ some "join") (h2 : m.mtype ≠ some "ping") :
    handleMessage eid ⟨some "ping", ts⟩ = OutMsg.pong ts ∧
    handleMessage eid m = OutMsg.errorMsg (unknownTypeDetail m.mtype) ∧
    (receiveLoop eid fs).length = fs.length := by
  refine ⟨?_, ?_, receiveLoop_length eid fs⟩
  · simp [handleMessage]
  · unfold handleMessage
    rw [if_neg h1, if_neg h2]

/-- C10 (amended): broadcast_to_event on an event with no room entry and
disconnect on an event with no room entry leave the map unchanged; broadcast
pruning never deletes the room entry itself (even when every member failed,
the entry survives with the pruned set); disconnect after which the room is
empty deletes the entry; and disconnect for a connection not in a NON-EMPTY
room leaves the map unchanged.  (The original claim's unrestricted
non-member clause is false: on an already-empty room entry, disconnect
deletes the entry — see the counterexample.) -/
theorem room_reclamation_amended (m : Manager) (eid ws : Nat) (fails : Nat → Bool) (room : List Nat)
    (hkeys : (m.map Prod.fst).Nodup) :
    (findRoom m eid = none → broadcast_to_event m eid fails = ([], m) ∧
        disconnect m ws eid = m) ∧
    (findRoom m eid = some room →
        findRoom (broadcast_to_event m eid fails).2 eid =
          some (room.filter (fun c => !(fails c)))) ∧
    (findRoom m eid = some room → room.filter (fun c => c ≠ ws) = [] →
        findRoom (disconnect m ws eid) eid = none) ∧
    (findRoom m eid = some room → ws ∉ room → room ≠ [] → disconnect m ws eid = m) := by
  refine ⟨?_, ?_, ?_, ?_⟩
  · intro h
    constructor
    · unfold broadcast_to_event; rw [h]
    · unfold disconnect; rw [h]
  · intro h
    unfold broadcast_to_event
    rw [h]
    exact findRoom_setRoom_self m eid room _ h
  · intro h hempty
    unfold disconnect
    rw [h]
    simp only []
    rw [hempty, if_pos rfl]
    exact findRoom_eraseRoom_self m eid hkeys
  · intro h hmem hne
    unfold disconnect
    rw [h]
    simp only []
    have hfil : room.filter (fun c => c ≠ ws) = room := by
      rw [List.filter_eq_self]
      intro a ha
      have : a ≠ ws := fun he => hmem (he ▸ ha)
      simpa using this
    rw [hfil, if_neg hne]
    exact setRoom_self m eid room h

/-- C6: get_poll_results returns a total equal to the sum of the per-option
counts, entries ordered by option position, each entry's vote_count equal to
the number of PollResponse rows for that option, and exactly one entry per
option of the poll. -/
theorem poll_results_ordered_counts (db : DB) (pid : Nat) (res : PollResults)
    (h : getPollResults db pid = .ok res) :
    res.total_votes = (res.results.map (fun e => e.vote_count)).sum ∧
    List.Pairwise entryLe res.results ∧
    (∀ e ∈ res.results, e.vote_count = optionVoteCount db e.option_id) ∧
    List.Perm res.results ((optionsOf db pid).map (mkEntry db)) := by
  unfold getPollResults at h
  cases hfp : findPoll db pid with
  | none => rw [hfp] at h; cases h
  | some poll =>
      rw [hfp] at h
      simp only [] at h
      cases h
      constructor
      · show totalVotes db pid = _
        have hperm := (List.perm_insertionSort entryLe
          ((optionsOf db pid).map (mkEntry db))).map (fun e => e.vote_count)
        rw [hperm.sum_eq, List.map_map]
        rfl
      refine ⟨List.sorted_insertionSort entryLe _, ?_, List.perm_insertionSort entryLe _⟩
      intro e he
      have hmem : e ∈ (optionsOf db pid).map (mkEntry db) :=
        ((List.perm_insertionSort entryLe _).mem_iff).mp he
      obtain ⟨o, _, rfl⟩ := List.mem_map.mp hmem
      rfl

/-- C7 (code bug): update_poll_status called with a poll id for which no
poll exists fails with an AttributeError — the status parameter shadows the
fastapi status module, so the intended NotFound HTTPException is never
constructed — for every requested status value. -/
theorem update_status_missing_poll_bug (db : DB) (pid : Nat) (s : String)
    (h : findPoll db pid = none) :
    updatePollStatus db pid s = .error (.attributeError "HTTP_404_NOT_FOUND") ∧
    ServiceError.attributeError "HTTP_404_NOT_FOUND" ≠ ServiceError.notFoundPoll := by
  refine ⟨?_, by simp⟩
  unfold updatePollStatus
  rw [h]

theorem findPoll_setPollStatus (l : List PollRec) (pid : Nat) (st : PollStatus) (poll : PollRec)
    (h : l.find? (fun p => p.id == pid) = some poll) :
    (setPollStatus pid st l).find? (fun p => p.id == pid) =
      some { poll with status := st } := by
  induction l with
  | nil => cases h
  | cons p rest ih =>
      rw [List.find?_cons] at h
      unfold setPollStatus
      cases hp : (p.id == pid) with
      | true =>
          rw [hp] at h
          have hpoll : p = poll := by simpa using h
          subst hpoll
          rw [if_pos rfl, List.find?_cons]
          have hid : (({ p with status := st } : PollRec).id == pid) = true := hp
          rw [hid]
      | false =>
          rw [hp] at h
          rw [if_neg (by simp), List.find?_cons, hp]
          exact ih h

/-- C8: for every existing poll and every target status among draft,
active and closed, update_poll_status succeeds and sets the poll's status to
the target regardless of the current status (in particular closed back to
active); and every successfully created poll starts in status draft. -/
theorem poll_status_transitions_unrestricted (db : DB) (pid : Nat) (s : String) (st : PollStatus)
    (poll : PollRec)
    (hfind : findPoll db pid = some poll) (hparse : parsePollStatus s = some st) :
    (∃ poll' db', updatePollStatus db pid s = .ok (poll', db') ∧
        poll'.status = st ∧ findPoll db' pid = some poll') ∧
    (∀ (eid : Nat) (q pt : String) (opts : List (String × Nat)) (p' : PollRec) (db2 : DB),
        createPoll db eid q pt opts = .ok (p', db2) → p'.status = PollStatus.draft) := by
  constructor
  · refine ⟨{ poll with status := st }, { db with polls := setPollStatus pid st db.polls },
      ?_, rfl, ?_⟩
    · unfold updatePollStatus
      rw [hfind]
      simp only []
      rw [hparse]
    · unfold findPoll
      exact findPoll_setPollStatus db.polls pid st poll hfind
  · intro eid q pt opts p' db2 h2
    unfold createPoll at h2
    split at h2
    · cases h2
    · cases hpt : parsePollType pt with
      | none => rw [hpt] at h2; cases h2
      | some ty =>
          rw [hpt] at h2
          simp only [] at h2
          split at h2
          · cases h2
          · split at h2
            · cases h2
            · split at h2
              · cases h2
              · cases h2
                rfl

/-- C1: for every single-choice poll and every attendee pair starting with
no responses, after any sequence of vote_on_poll calls at most one
PollResponse row exists for the (poll, attendee) pair and it records the
option of the most recent successful call that targeted the poll and
resolved to the attendee; a call that raises commits nothing. -/
theorem single_choice_replace_invariant (db0 : DB) (cs : List VoteCall) (pid aid : Nat)
    (hty : pollTypeOf db0 pid = some PollType.single)
    (h0 : pairResponses db0 pid aid = []) :
    (pairResponses (runTrace db0 cs) pid aid).length ≤ 1 ∧
    pairResponses (runTrace db0 cs) pid aid =
      optToList pid aid (lastSuccOpt pid aid db0 cs none) ∧
    (∀ (db : DB) (c : VoteCall) (e : ServiceError),
        voteOnPoll db c.poll_id c.option_id c.session_id = .error e →
          applyCall db c = db) := by
  have hmain := traceInv pid aid cs db0 none hty (by simpa [optToList] using h0)
  refine ⟨?_, hmain, fun db c e hv => applyCall_of_error db c e hv⟩
  rw [hmain]
  cases lastSuccOpt pid aid db0 cs none <;> simp [optToList]

/-- Witness for C1: a two-call trace where the attendee re-votes. -/
theorem single_choice_replace_invariant_witness :
    (pairResponses (runTrace dbSingle [⟨1, 1, "s1"⟩, ⟨1, 2, "s1"⟩]) 1 1).length ≤ 1 :=
  (single_choice_replace_invariant dbSingle [⟨1, 1, "s1"⟩, ⟨1, 2, "s1"⟩] 1 1
    (by decide) (by decide)).1

/-- Witness for C2: the second identical multiple-choice vote is rejected. -/
theorem multi_choice_duplicate_vote_witness :
    voteOnPoll dbMultiVoted 1 1 "s" = .error .duplicateVote :=
  (multi_choice_duplicate_vote dbMulti dbMultiVoted 1 1 "s" (by decide) rfl).1

/-- Witness for C3: the first upvote of a fresh question reports added. -/
theorem upvote_toggle_involution_witness :
    (⟨"added", 1, 1⟩ : UpvoteResult).action = "added" ↔
      hasQVote dbQfix 1 (resolveId dbQfix 1 "x") = false :=
  (upvote_toggle_involution dbQfix 1 "x" 1 ⟨"added", 1, 1⟩ dbQfixAfter
    (by decide) rfl).2.1

/-- Witness for C4: voting on a draft poll is rejected. -/
theorem vote_requires_active_status_witness :
    voteOnPoll dbDraft 1 1 "s" = .error .invalidState :=
  (vote_requires_active_status dbDraft 1 1 "s"
    ⟨1, 1, "q", PollType.single, PollStatus.draft⟩ (by decide) (by decide)).1

/-- Witness for C5: connection 5 fails, connection 6 still receives. -/
theorem broadcast_fanout_isolation_witness :
    (broadcast_to_event [(1, [5, 6]), (2, [7])] 1 (fun c => c == 5)).1 =
      ([5, 6] : List Nat).filter (fun c => !(c == 5)) :=
  (broadcast_fanout_isolation [(1, [5, 6]), (2, [7])] 1 (fun c => c == 5) [5, 6]
    (by decide)).1

/-- Witness for C6: three attendees vote A, B, A; results are A:2, B:1,
total 3, ordered [A, B]. -/
theorem poll_results_ordered_counts_witness :
    getPollResults (runTrace dbSingle [⟨1, 1, "s1"⟩, ⟨1, 2, "s2"⟩, ⟨1, 1, "s3"⟩]) 1 =
      .ok ⟨1, 3, [⟨1, "A", 2, 0⟩, ⟨2, "B", 1, 1⟩]⟩ ∧
    List.Pairwise entryLe [⟨1, "A", 2, 0⟩, ⟨2, "B", 1, 1⟩] :=
  ⟨rfl,
   (poll_results_ordered_counts
      (runTrace dbSingle [⟨1, 1, "s1"⟩, ⟨1, 2, "s2"⟩, ⟨1, 1, "s3"⟩]) 1
      ⟨1, 3, [⟨1, "A", 2, 0⟩, ⟨2, "B", 1, 1⟩]⟩ rfl).2.1⟩

/-- Witness for C7: updating a poll that does not exist raises the
AttributeError, not the intended NotFound. -/
theorem update_status_missing_poll_bug_witness :
    updatePollStatus dbEmptyStore 1 "active" =
      .error (.attributeError "HTTP_404_NOT_FOUND") :=
  (update_status_missing_poll_bug dbEmptyStore 1 "active" (by decide)).1

/-- Witness for C8: a closed poll is reopened to active. -/
theorem poll_status_transitions_unrestricted_witness :
    ∃ poll' db', updatePollStatus dbClosed 1 "active" = .ok (poll', db') ∧
      poll'.status = PollStatus.active ∧ findPoll db' 1 = some poll' :=
  (poll_status_transitions_unrestricted dbClosed 1 "active" PollStatus.active
    ⟨1, 1, "q", PollType.single, PollStatus.closed⟩ (by decide) (by decide)).1

/-- Witness for C9: ping echoes 42, an unknown type draws an error frame,
and a malformed frame is answered without closing the loop. -/
theorem ws_ping_echo_unknown_error_witness :
    handleMessage 1 (⟨some "ping", some (42 : Int)⟩ : InMsg Int) = OutMsg.pong (some 42) ∧
    handleMessage 1 (⟨some "vote", none⟩ : InMsg Int) =
      OutMsg.errorMsg (unknownTypeDetail (some "vote")) ∧
    (receiveLoop 1 ([Frame.malformed] : List (Frame Int))).length =
      ([Frame.malformed] : List (Frame Int)).length :=
  ws_ping_echo_unknown_error 1 (some 42) ⟨some "vote", none⟩ [Frame.malformed]
    (by decide) (by decide)

/-- Witness for C10: disconnecting the last member deletes the room entry. -/
theorem room_reclamation_amended_witness :
    findRoom (disconnect [(1, [5])] 5 1) 1 = none :=
  (room_reclamation_amended [(1, [5])] 1 5 (fun _ => false) [5]
    (by decide)).2.2.1 (by decide) (by decide)

/-- Counterexample for C10 as originally stated: a broadcast in which every
member fails leaves the room entry behind with an empty set, and a
disconnect for a connection that is not in that (empty) room does NOT leave
the map unchanged — it deletes the entry. -/
theorem room_reclamation_nonmember_cex :
    broadcast_to_event [(1, [5])] 1 (fun _ => true) = ([], [(1, [])]) ∧
    (7 : Nat) ∉ ([] : List Nat) ∧
    disconnect [(1, ([] : List Nat))] 7 1 ≠ [(1, ([] : List Nat))] := by
  refine ⟨by decide, by decide, by decide⟩
